import Mathlib

/-!
# SAMUD — shallow embedding and verification of the concurrent world core

This file embeds, in Lean 4, the parts of the SAMUD server (a telnet MUD
written in Python) that its specification makes claims about:

* the sliding-window chat rate limiter (`src/player.py`, `Player.check_rate_limit`),
* the world model (`src/world.py`: `Room`, `World.move_player`, `World.get_room`),
* player movement and registration (`src/player.py`: `Player.move_to_room`,
  `PlayerManager.add_player`) together with the persisted player record
  (`src/database.py`, `Database.update_player_room`),
* the broadcast fan-out engine (`src/broadcast.py`,
  `BroadcastManager.broadcast_to_room` and `_send_to_player`),
* the NPC engine (`src/npcs.py`: `NPC.get_next_room`, `NPC.check_keywords`,
  `NPC.knows_player`, `NPCManager.place_npc`, `NPCManager.process_room_message`),
* the `say` command handler (`src/commands.py`, `CommandProcessor.cmd_say`),
* the periodic idle check (`src/server.py`, `MudServer.idle_check_task`, and
  `src/player.py`, `PlayerManager.check_idle_players`).

Python dictionaries are embedded as association lists in insertion order
(dictionary keys are unique, so updating every entry with a matching key is the
same as updating the single entry); Python sets of ids as duplicate-free lists
in insertion order; `datetime` values as integer timestamps in seconds;
exceptions as `Except`; `None`-able values as `Option`.  Randomness
(`random.random`, `random.choice`) is made explicit: the random draw and the
choice index are extra arguments, so every function is deterministic in its
inputs.
-/

/-! ## Python dictionary and set primitives -/

/-- `d.get(k)` on a Python dictionary embedded as an association list. -/
def dict_get {α β : Type} [DecidableEq α] (k : α) : List (α × β) → Option β
  | [] => none
  | (k1, v) :: rest => if k1 = k then some v else dict_get k rest

/-- `d[k] = v` on a Python dictionary: replace the entry in place if the key is
present, append it otherwise. -/
def dict_set {α β : Type} [DecidableEq α] (k : α) (v : β) :
    List (α × β) → List (α × β)
  | [] => [(k, v)]
  | (k1, v1) :: rest =>
      if k1 = k then (k1, v) :: rest else (k1, v1) :: dict_set k v rest

/-- `del d[k]` on a Python dictionary (keys are unique, so the filter removes
exactly the one entry). -/
def dict_del {α β : Type} [DecidableEq α] (k : α) (l : List (α × β)) :
    List (α × β) :=
  l.filter (fun p => decide (p.1 ≠ k))

/-- In-place mutation of the object stored under key `k`: every entry whose key
matches is rewritten (keys are unique in a dictionary, so this is the single
entry holding the mutated object). -/
def dict_map_at {α β : Type} [DecidableEq α] (k : α) (f : β → β)
    (l : List (α × β)) : List (α × β) :=
  l.map (fun p => if p.1 = k then (p.1, f p.2) else p)

/-- `s.add(x)` on a Python set embedded as a duplicate-free list. -/
def pyset_add {α : Type} [DecidableEq α] (x : α) (s : List α) : List α :=
  if x ∈ s then s else s ++ [x]

/-- `s.discard(x)` on a Python set. -/
def pyset_discard {α : Type} [DecidableEq α] (x : α) (s : List α) : List α :=
  s.filter (fun y => decide (y ≠ x))

/-! ## Rate limiting (`config.py` lines 89-91, `player.py` lines 86-107)

`Player.check_rate_limit` first rebinds `self.message_times` to the timestamps
`t` with `(now - t).total_seconds() < MESSAGE_RATE_WINDOW`, then rejects if the
kept list already has `MESSAGE_RATE_LIMIT` entries, and otherwise appends `now`
and allows.  Timestamps are seconds as integers. -/

/-- `config.MESSAGE_RATE_LIMIT` (messages). -/
def MESSAGE_RATE_LIMIT : Nat := 5

/-- `config.MESSAGE_RATE_WINDOW` (seconds). -/
def MESSAGE_RATE_WINDOW : Int := 10

/-- The pruning step of `Player.check_rate_limit`: keep timestamps strictly
younger than the window. -/
def prune_times (window : Int) (now : Int) (times : List Int) : List Int :=
  times.filter (fun t => decide (now - t < window))

/-- `Player.check_rate_limit` (player.py lines 86-107), returning the decision
(`True` = within limits) and the new `message_times` state.  The limit and
window are the configured constants, kept as parameters. -/
def check_rate_limit (limit : Nat) (window : Int) (times : List Int)
    (now : Int) : Bool × List Int :=
  let kept := prune_times window now times
  if limit ≤ kept.length then (false, kept)
  else (true, kept ++ [now])

/-- A sequence of chat attempts at the given call times, threading the
`message_times` state exactly as repeated `check_rate_limit` calls do; returns
the list of decisions and the final state. -/
def rate_limit_run (limit : Nat) (window : Int) (times : List Int) :
    List Int → List Bool × List Int
  | [] => ([], times)
  | t :: rest =>
      let step := check_rate_limit limit window times t
      let tail := rate_limit_run limit window step.2 rest
      (step.1 :: tail.1, tail.2)

/-! ## World model (`world.py` lines 10-39 and 276-323)

`Room` is the dataclass of world.py lines 10-39.  Its fields are exactly the
dataclass fields; note that it has **no** `npcs` field and **no**
`add_npc`/`remove_npc` methods (npcs.py nevertheless calls them, see the
`place_npc` embedding below).  `players` is a Python set of player ids. -/

structure Room where
  id : String
  name : String
  description : String
  ascii_art : String := ""
  exits : List (String × String) := []
  players : List Nat := []
  deriving DecidableEq, Repr

/-- `Room.add_player` (world.py lines 27-30): `self.players.add(player_id)`. -/
def Room.add_player (r : Room) (player_id : Nat) : Room :=
  { r with players := pyset_add player_id r.players }

/-- `Room.remove_player` (world.py lines 32-35):
`self.players.discard(player_id)`. -/
def Room.remove_player (r : Room) (player_id : Nat) : Room :=
  { r with players := pyset_discard player_id r.players }

/-- The mutable state of the `World` singleton: its room dictionary.  This is
the only attribute `World.__init__` (world.py lines 45-47) creates; in
particular the class has no `starting_room` attribute (see
`world_starting_room` below). -/
structure World where
  rooms : List (String × Room)
  deriving DecidableEq, Repr

/-- `World.get_room` (world.py lines 276-278): `self.rooms.get(room_id)`. -/
def World.get_room (w : World) (room_id : String) : Option Room :=
  dict_get room_id w.rooms

/-- `World.move_player` (world.py lines 285-293): remove the player from the
source room if it exists, add to the destination room if it exists.  Mutating
a `Room` object held in the dictionary is embedded as rewriting its entry. -/
def World.move_player (w : World) (player_id : Nat)
    (from_room_id to_room_id : String) : World :=
  let w1 : World :=
    match w.get_room from_room_id with
    | some _ =>
        { rooms := dict_map_at from_room_id (·.remove_player player_id) w.rooms }
    | none => w
  match w1.get_room to_room_id with
  | some _ =>
      { rooms := dict_map_at to_room_id (·.add_player player_id) w1.rooms }
  | none => w1

/-- `World.get_opposite_direction` (world.py lines 313-323): table lookup with
identity fallback. -/
def World.get_opposite_direction (direction : String) : String :=
  (dict_get direction
    [("north", "south"), ("south", "north"), ("east", "west"),
     ("west", "east"), ("up", "down"), ("down", "up")]).getD direction

/-- `World.get_direction_from_rooms` (world.py lines 302-311): the first exit
of `from_room` that leads to `to_room`. -/
def World.get_direction_from_rooms (w : World)
    (from_room_id to_room_id : String) : Option String :=
  match w.get_room from_room_id with
  | none => none
  | some from_room =>
      (from_room.exits.find? (fun p => p.2 == to_room_id)).map Prod.fst

/-! ## Persisted player records (`database.py` lines 85-128)

The `players` table is embedded as a dictionary from player id to record.
`Database.update_player_room` runs an `UPDATE ... WHERE id = ?` and reports
whether a row matched. -/

structure PlayerRecord where
  username : String
  password_hash : String
  current_room_id : Option String
  deriving DecidableEq, Repr

/-- The persisted store: player id → record. -/
def DBPlayers : Type := List (Nat × PlayerRecord)

/-- `Database.update_player_room` (database.py lines 108-128): set
`current_room_id` on the matching row; returns the new table and
`rowcount > 0`. -/
def db_update_player_room (db : DBPlayers) (player_id : Nat)
    (room_id : String) : DBPlayers × Bool :=
  (dict_map_at player_id (fun rec => { rec with current_room_id := some room_id }) db,
   (dict_get player_id db).isSome)

/-! ## Live players and movement (`player.py` lines 18-144)

The live `Player` object of player.py.  Only the fields `move_to_room` and
`check_rate_limit` touch are carried (`client` is the owning session, embedded
separately for broadcasting; `last_activity` appears in the idle model). -/

structure PlayerState where
  id : Nat
  username : String
  current_room_id : String
  message_times : List Int := []
  deriving DecidableEq, Repr

/-- A room broadcast requested through `broadcast_to_room(room, message,
exclude_player_id)` during player movement. -/
structure MoveNotice where
  room : String
  message : String
  exclude : Option Nat
  deriving DecidableEq, Repr

/-- `Player._notify_room_exit` (player.py lines 64-73). -/
def notify_room_exit (p : PlayerState) (room_id : String)
    (direction : Option String) : MoveNotice :=
  { room := room_id
    message :=
      match direction with
      | some d => p.username ++ " heads " ++ d ++ "."
      | none => p.username ++ " has left."
    exclude := some p.id }

/-- `Player._notify_room_entry` (player.py lines 75-84). -/
def notify_room_entry (p : PlayerState) (room_id : String)
    (from_direction : Option String) : MoveNotice :=
  { room := room_id
    message :=
      match from_direction with
      | some d => p.username ++ " arrives from the " ++ d ++ "."
      | none => p.username ++ " has arrived."
    exclude := some p.id }

/-- `Player.move_to_room` (player.py lines 33-62): update the world occupancy
sets via `World.move_player`, set `current_room_id`, persist the new room, then
emit the exit/entry notifications.  Returns the new world, player, persisted
table and the notifications in emission order. -/
def move_to_room (w : World) (db : DBPlayers) (p : PlayerState)
    (room_id : String) (from_direction : Option String) :
    World × PlayerState × DBPlayers × List MoveNotice :=
  let old_room_id := p.current_room_id
  let w1 := w.move_player p.id old_room_id room_id
  let p1 := { p with current_room_id := room_id }
  let db1 := (db_update_player_room db p.id room_id).1
  let arrival_direction :=
    match from_direction with
    | some d => some (World.get_opposite_direction d)
    | none => w1.get_direction_from_rooms room_id old_room_id
  let exit_notices :=
    if old_room_id ≠ "" ∧ old_room_id ≠ room_id then
      [notify_room_exit p1 old_room_id from_direction]
    else []
  (w1, p1, db1, exit_notices ++ [notify_room_entry p1 room_id arrival_direction])

/-- Attribute lookup `world.starting_room` performed by `Player.__init__`
(player.py line 25).  The `World` class (world.py lines 42-335) never defines
or assigns a `starting_room` attribute, and no other code in the repository
assigns one to the singleton (`room_loader.RoomLoader` keeps its own,
never copied over), so in CPython this lookup raises `AttributeError`. -/
def world_starting_room (_w : World) : Except String String :=
  .error "AttributeError: World object has no attribute starting_room"

/-- `Player.__init__` (player.py lines 21-31): reads `world.starting_room`
for the initial `current_room_id`. -/
def player_init (player_id : Nat) (username : String) (w : World) :
    Except String PlayerState := do
  let start ← world_starting_room w
  .ok { id := player_id, username := username, current_room_id := start }

/-- `PlayerManager.add_player` (player.py lines 121-144): construct the
`Player`, resolve the starting room (explicit argument, else the persisted
record, else the constructor default), record it in `active_players`, and add
its id to the room occupancy set.  Exceptions from `Player.__init__`
propagate. -/
def add_player (w : World) (db : DBPlayers)
    (active_players : List (Nat × PlayerState)) (player_id : Nat)
    (username : String) (room_id : Option String) :
    Except String (World × List (Nat × PlayerState) × PlayerState) := do
  let player ← player_init player_id username w
  let player :=
    match room_id with
    | some r => { player with current_room_id := r }
    | none =>
        match dict_get player_id db with
        | some rec =>
            match rec.current_room_id with
            | some r => { player with current_room_id := r }
            | none => player
        | none => player
  let actives := dict_set player_id player active_players
  let w1 : World :=
    match w.get_room player.current_room_id with
    | some _ =>
        { rooms := dict_map_at player.current_room_id
            (·.add_player player_id) w.rooms }
    | none => w
  .ok (w1, actives, player)

/-! ## Broadcast fan-out (`broadcast.py` lines 20-123)

A live session is reduced to what `_send_to_player` inspects: the `is_active`
flag and the outcome the transport produces for this send (`client.send` may
raise — `_send_to_player` catches any exception and logs it; in addition the
caller wraps all sends in `asyncio.gather(..., return_exceptions=True)`). -/

/-- Decidable equality for `Except`, needed to evaluate concrete session
states in witnesses. -/
instance except_dec_eq {ε α : Type} [DecidableEq ε] [DecidableEq α] :
    DecidableEq (Except ε α) := fun a b =>
  match a, b with
  | .ok x, .ok y =>
      if h : x = y then isTrue (by rw [h]) else isFalse (by simp [h])
  | .error x, .error y =>
      if h : x = y then isTrue (by rw [h]) else isFalse (by simp [h])
  | .ok _, .error _ => isFalse (by simp)
  | .error _, .ok _ => isFalse (by simp)

structure Session where
  is_active : Bool
  send_result : Except String Unit
  deriving DecidableEq, Repr

/-- The live player as the broadcaster sees it: id, username and owning
session. -/
structure LivePlayer where
  id : Nat
  username : String
  session : Session
  deriving DecidableEq, Repr

/-- The raw body of `_send_to_player` without its `try`/`except`: skip
inactive clients, otherwise perform the send, which may raise. -/
def send_to_player_raw (p : LivePlayer) (message : String) :
    Except String (Option (Nat × String)) :=
  if p.session.is_active then
    match p.session.send_result with
    | .ok _ => .ok (some (p.id, message))
    | .error e => .error e
  else .ok none

/-- `BroadcastManager._send_to_player` (broadcast.py lines 117-123): the
`try`/`except` turns any raised exception into a log line, so the function
always returns; result is the delivery (if any) and log lines. -/
def send_to_player (p : LivePlayer) (message : String) :
    Option (Nat × String) × List String :=
  match send_to_player_raw p message with
  | .ok d => (d, [])
  | .error e => (none, ["Failed to send to player " ++ p.username ++ ": " ++ e])

/-- `PlayerManager.get_players_in_room` (player.py lines 184-195): resolve the
room, then each occupant id through the live registry. -/
def get_players_in_room (w : World) (registry : List (Nat × LivePlayer))
    (room_id : String) : List LivePlayer :=
  match w.get_room room_id with
  | none => []
  | some room => room.players.filterMap (fun pid => dict_get pid registry)

/-- The `asyncio.gather` over the per-recipient sends of `broadcast_to_room`:
collect deliveries and logs of every task. -/
def gather_sends (message : String) :
    List LivePlayer → List (Nat × String) × List String
  | [] => ([], [])
  | p :: rest =>
      let this := send_to_player p message
      let tail := gather_sends message rest
      (this.1.toList ++ tail.1, this.2 ++ tail.2)

/-- `BroadcastManager.broadcast_to_room` (broadcast.py lines 20-58): resolve
the room (warn and return if absent), apply the `[System]` prefix, send to
every occupant except `exclude_player_id`.  The `Except` result records
whether any exception escapes to the caller; per-recipient failures are
caught in `send_to_player`, so the result is always `ok` with the deliveries
and log lines. -/
def broadcast_to_room (w : World) (registry : List (Nat × LivePlayer))
    (room_id message : String) (exclude_player_id : Option Nat)
    (is_system : Bool) :
    Except String (List (Nat × String) × List String) :=
  match w.get_room room_id with
  | none => .ok ([], ["Attempted to broadcast to non-existent room: " ++ room_id])
  | some _ =>
      let formatted := if is_system then "[System] " ++ message else message
      let players := get_players_in_room w registry room_id
      let recipients := players.filter (fun p => decide (some p.id ≠ exclude_player_id))
      .ok (gather_sends formatted recipients)

/-! ## NPC engine (`npcs.py`)

The NPC configuration dictionaries (`movement`, `memory`) are embedded as
records of optional fields; `movement` itself is `Option` because the code
tests the dictionary for truthiness (`if not self.movement`).  The `datetime`
fields `last_moved`/`last_action` are replaced by explicit elapsed-time
arguments, and `random.random()`/`random.choice` by an explicit draw and
choice index, so the functions are deterministic.  `state_data`,
`pending_response` and the `context` policy only feed functions outside the
claims and are omitted. -/

/-- The `movement` configuration dictionary of an NPC
(`npcs.py` lines 175-260 read its keys). -/
structure MovementConfig where
  allowed_rooms : Option (List String) := none
  tick_interval : Option Nat := none
  movement_probability : Option ℚ := none
  schedule : Option (List (String × String)) := none
  departure_message : Option String := none
  arrival_message : Option String := none
  deriving DecidableEq, Repr

/-- The `memory` configuration dictionary (`npcs.py` lines 262-311 read its
keys). -/
structure MemorySettings where
  remember_names : Option Bool := none
  remember_topics : Option Bool := none
  memory_duration : Option Nat := none
  deriving DecidableEq, Repr

/-- One entry of `player_memories` (`npcs.py` lines 272-278): timestamps are
seconds. -/
structure PlayerMemory where
  first_met : Int
  last_seen : Int
  interaction_count : Nat
  topics : List String
  deriving DecidableEq, Repr

/-- The NPC object (`npcs.py` lines 17-48), restricted to the fields the
claimed functions read or write. -/
structure NPC where
  id : String
  name : String := "Unknown"
  description : String := "An unremarkable figure."
  personality : String := ""
  current_room : Option String := none
  is_interacting : Bool := false
  dialogue : List (String × String) := []
  keywords : List (String × String) := []
  movement : Option MovementConfig := none
  ambient_actions : List String := []
  memory_settings : MemorySettings := {}
  player_memories : List (String × PlayerMemory) := []
  deriving DecidableEq, Repr

/-- The hour bucketing shared by `NPC.get_next_room` (npcs.py lines 217-224)
and `TimeOfDay.get_period` (tick_scheduler.py lines 45-67). -/
def time_period (hour : Nat) : String :=
  if 6 ≤ hour ∧ hour < 12 then "morning"
  else if 12 ≤ hour ∧ hour < 18 then "afternoon"
  else if 18 ≤ hour ∧ hour < 24 then "evening"
  else "night"

/-- The `tick_interval` value `get_next_room` compares against:
`self.movement.get('tick_interval', 120)`. -/
def NPC.tick_interval_value (npc : NPC) : Nat :=
  match npc.movement with
  | none => 120
  | some mv => mv.tick_interval.getD 120

/-- The `allowed_rooms` list of the movement policy:
`self.movement.get('allowed_rooms', [])`. -/
def NPC.allowed_rooms_list (npc : NPC) : List String :=
  match npc.movement with
  | none => []
  | some mv => mv.allowed_rooms.getD []

/-- The schedule entry for the current time period, as `get_next_room` looks
it up (`schedule[time_period]` when `current_time` is given, the movement
policy has a `schedule` key and the period is present). -/
def NPC.schedule_entry (npc : NPC) (current_hour : Option Nat) : Option String :=
  match npc.movement, current_hour with
  | some mv, some h =>
      match mv.schedule with
      | some sch => dict_get (time_period h) sch
      | none => none
  | _, _ => none

/-- `NPC.get_next_room` (npcs.py lines 190-239).  `elapsed` is the whole
seconds since `last_moved` (the code reads the timedelta `.seconds` attribute,
which is the within-day component, hence the `% 86400`); `roll` is the
`random.random()` draw; `choice_idx` selects the element `random.choice`
returns; `current_hour` is `current_time.hour` when a time was passed. -/
def NPC.get_next_room (npc : NPC) (elapsed : Nat) (roll : ℚ)
    (choice_idx : Nat) (current_hour : Option Nat) : Option String :=
  match npc.movement with
  | none => none
  | some mv =>
      if npc.is_interacting then none
      else if elapsed % 86400 < mv.tick_interval.getD 120 then none
      else if mv.movement_probability.getD (3/10) < roll then none
      else
        let scheduled : Option String :=
          match current_hour, mv.schedule with
          | some h, some sch =>
              match dict_get (time_period h) sch with
              | some target =>
                  if some target ≠ npc.current_room then some target else none
              | none => none
          | _, _ => none
        match scheduled with
        | some target => some target
        | none =>
            let allowed := mv.allowed_rooms.getD []
            let other_rooms :=
              allowed.filter (fun r => decide (some r ≠ npc.current_room))
            match other_rooms with
            | [] => none
            | r :: rs =>
                some ((r :: rs).get
                  ⟨choice_idx % (r :: rs).length, Nat.mod_lt _ (Nat.succ_pos _)⟩)

/-- `NPC.can_move_to` (npcs.py lines 175-188): the destination must be in the
`allowed_rooms` list of a non-empty movement policy. -/
def NPC.can_move_to (npc : NPC) (room_id : String) : Bool :=
  match npc.movement with
  | none => false
  | some mv => room_id ∈ mv.allowed_rooms.getD []

/-- `NPC.get_movement_message` (npcs.py lines 241-260). -/
def NPC.get_movement_message (npc : NPC) (destination : String)
    (is_departure : Bool) : String :=
  if is_departure then
    match npc.movement >>= (·.departure_message) with
    | some msg =>
        (msg.replace "{npc_name}" npc.name).replace "{destination}" destination
    | none => npc.name ++ " heads off toward " ++ destination ++ "."
  else
    match npc.movement >>= (·.arrival_message) with
    | some msg =>
        (msg.replace "{npc_name}" npc.name).replace "{origin}" destination
    | none => npc.name ++ " arrives."

/-- Python `str.lower()` on a character list (messages are ASCII). -/
def py_lower (l : List Char) : List Char :=
  l.map Char.toLower

/-- Python `str.split(sep)` for a one-character separator. -/
def py_split (sep : Char) : List Char → List (List Char)
  | [] => [[]]
  | c :: rest =>
      let tail := py_split sep rest
      if c = sep then [] :: tail
      else
        match tail with
        | [] => [[c]]
        | t :: ts => (c :: t) :: ts

/-- Python `str.strip()`: drop whitespace from both ends. -/
def py_strip (l : List Char) : List Char :=
  ((l.dropWhile Char.isWhitespace).reverse.dropWhile Char.isWhitespace).reverse

/-- Python slicing `s[:n]` on a string. -/
def py_take (n : Nat) (s : String) : String :=
  String.mk (s.toList.take n)

/-- Python `needle in haystack` on character lists. -/
def list_contains_sub (needle : List Char) : List Char → Bool
  | [] => needle.isPrefixOf []
  | c :: rest => needle.isPrefixOf (c :: rest) || list_contains_sub needle rest

/-- Word characters for the regex `\b` assertions of `check_keywords`
(ASCII `\w`). -/
def is_word_char (c : Char) : Bool :=
  c.isAlphanum || c == '_'

/-- `\w`-ness of an optional character; positions outside the string count as
non-word. -/
def is_word_opt : Option Char → Bool
  | some c => is_word_char c
  | none => false

/-- Does the needle match at this position with `\b` assertions on both sides
(`re.search(r"\b" + re.escape(trigger) + r"\b", message)` at one position)?
`prev` is the character just before the position. -/
def match_with_boundaries (prev : Option Char) (rest needle : List Char) :
    Bool :=
  needle.isPrefixOf rest &&
  (is_word_opt prev != is_word_opt needle.head?) &&
  (is_word_opt needle.getLast? != is_word_opt ((rest.drop needle.length).head?))

/-- Search every position of the haystack for a `\b`-delimited occurrence of
the needle. -/
def word_boundary_search (prev : Option Char) (rest needle : List Char) :
    Bool :=
  match_with_boundaries prev rest needle ||
  match rest with
  | [] => false
  | c :: cs => word_boundary_search (some c) cs needle

/-- `pattern.split('|')` with `t.strip().lower()` applied to each trigger
(npcs.py line 90). -/
def split_triggers (pattern : String) : List (List Char) :=
  (py_split '|' pattern.toList).map (fun t => py_lower (py_strip t))

/-- The body of the inner trigger loop of `check_keywords` (npcs.py lines
91-102): word-boundary match first, substring match as fallback, keeping the
longest matching trigger (strictly longer than the best so far). -/
def consider_trigger (message_lower : List Char) (best : Option String × Nat)
    (t : List Char) (response : String) : Option String × Nat :=
  if word_boundary_search none message_lower t then
    if best.2 < t.length then (some response, t.length) else best
  else if list_contains_sub t message_lower then
    if best.2 < t.length then (some response, t.length) else best
  else best

/-- `NPC.check_keywords` (npcs.py lines 71-104): scan the keyword table in
insertion order, return the response of the longest matching trigger. -/
def NPC.check_keywords (npc : NPC) (message : String) : Option String :=
  let message_lower := py_lower message.toList
  (npc.keywords.foldl
    (fun best pr =>
      (split_triggers pr.1).foldl
        (fun b t => consider_trigger message_lower b t pr.2) best)
    (none, 0)).1

/-- `timedelta.days` of `now - last_seen` with timestamps in seconds: floor
division. -/
def elapsed_days (now last_seen : Int) : Int :=
  Int.fdiv (now - last_seen) 86400

/-- `NPC.knows_player` (npcs.py lines 288-311): returns the answer and the
(possibly mutated) `player_memories` dictionary — an expired entry is deleted
as a side effect. -/
def NPC.knows_player (npc : NPC) (player_name : String) (now : Int) :
    Bool × List (String × PlayerMemory) :=
  if (npc.memory_settings.remember_names.getD true) = false then
    (false, npc.player_memories)
  else
    match dict_get player_name npc.player_memories with
    | none => (false, npc.player_memories)
    | some memory =>
        let memory_duration := npc.memory_settings.memory_duration.getD 30
        if (memory_duration : Int) < elapsed_days now memory.last_seen then
          (false, dict_del player_name npc.player_memories)
        else (true, npc.player_memories)

/-- `NPC.remember_player` (npcs.py lines 262-286): create or refresh the
memory entry; `now` is the current timestamp in seconds. -/
def NPC.remember_player (npc : NPC) (player_name : String)
    (topic : Option String) (now : Int) : NPC :=
  if (npc.memory_settings.remember_names.getD true) = false then npc
  else
    let mems :=
      match dict_get player_name npc.player_memories with
      | some _ => npc.player_memories
      | none =>
          dict_set player_name
            { first_met := now, last_seen := now,
              interaction_count := 0, topics := [] }
            npc.player_memories
    let mems := dict_map_at player_name
      (fun m =>
        let m := { m with last_seen := now,
                          interaction_count := m.interaction_count + 1 }
        match topic with
        | some t =>
            if npc.memory_settings.remember_topics.getD true ∧ t ∉ m.topics then
              { m with topics := m.topics ++ [t] }
            else m
        | none => m)
      mems
    { npc with player_memories := mems }

/-- The mutable state of `NPCManager` (npcs.py lines 342-347): the NPC
dictionary and the room → npc-id-set occupancy tracking. -/
structure NPCManagerState where
  npcs : List (String × NPC)
  room_npcs : List (String × List String)
  deriving DecidableEq, Repr

/-- `NPCManager.get_npcs_in_room` (npcs.py lines 395-405). -/
def get_npcs_in_room (st : NPCManagerState) (room_id : String) : List NPC :=
  ((dict_get room_id st.room_npcs).getD []).filterMap
    (fun npc_id => dict_get npc_id st.npcs)

/-- `NPCManager.remove_npc_from_room` (npcs.py lines 442-452). -/
def remove_npc_from_room (st : NPCManagerState) (npc_id room_id : String) :
    NPCManagerState :=
  match dict_get room_id st.room_npcs with
  | none => st
  | some s =>
      let s1 := pyset_discard npc_id s
      if s1 = [] then { st with room_npcs := dict_del room_id st.room_npcs }
      else { st with room_npcs := dict_set room_id s1 st.room_npcs }

/-- `NPCManager.place_npc` (npcs.py lines 407-440).  The `Room` dataclass of
world.py defines neither `remove_npc` nor `add_npc` (nor an `npcs` field), so
whenever the old or new room id resolves to an actual `Room` object the call
raises `AttributeError`; the embedding surfaces that as an `Except.error`.
Note the manager dictionaries are mutated before the failing attribute
call. -/
def place_npc (st : NPCManagerState) (w : World) (npc_id room_id : String) :
    Except String NPCManagerState :=
  match dict_get npc_id st.npcs with
  | none => .ok st
  | some npc => do
      let st1 ←
        match npc.current_room with
        | some cur =>
            let s := remove_npc_from_room st npc_id cur
            match w.get_room cur with
            | some _ =>
                Except.error
                  "AttributeError: Room object has no attribute remove_npc"
            | none => Except.ok s
        | none => Except.ok st
      let st2 := { st1 with
        npcs := dict_map_at npc_id
          (fun n => { n with current_room := some room_id }) st1.npcs }
      let st3 := { st2 with
        room_npcs := dict_set room_id
          (pyset_add npc_id ((dict_get room_id st2.room_npcs).getD []))
          st2.room_npcs }
      match w.get_room room_id with
      | some _ =>
          Except.error "AttributeError: Room object has no attribute add_npc"
      | none => Except.ok st3

/-- `NPCManager.move_npc` (npcs.py lines 454-509): validate against the
allow-list, broadcast departure, update the world `Room` objects (which raises
`AttributeError`, the class having no such methods), re-place, broadcast
arrival.  Returns the success flag, the new manager state and all broadcast
deliveries.  Database persistence (`save_npc_state`) is a write of the state
already computed and is not modelled further. -/
def move_npc (st : NPCManagerState) (w : World)
    (registry : List (Nat × LivePlayer)) (npc_id destination : String) :
    Except String (Bool × NPCManagerState × List (Nat × String)) :=
  match dict_get npc_id st.npcs with
  | none => .ok (false, st, [])
  | some npc =>
      if ¬ npc.can_move_to destination then .ok (false, st, [])
      else do
        let old_room := npc.current_room
        let dep ←
          match old_room with
          | some o =>
              broadcast_to_room w registry o
                (npc.get_movement_message destination true) none true
          | none => Except.ok ([], [])
        let _ ←
          match old_room with
          | some o =>
              match w.get_room o with
              | some _ =>
                  Except.error
                    "AttributeError: Room object has no attribute remove_npc"
              | none => Except.ok ()
          | none => Except.ok ()
        let st1 ← place_npc st w npc_id destination
        let _ ←
          match w.get_room destination with
          | some _ =>
              Except.error
                "AttributeError: Room object has no attribute add_npc"
          | none => Except.ok ()
        let arr ← broadcast_to_room w registry destination
          (npc.get_movement_message (old_room.getD "somewhere") false) none true
        .ok (true, st1, dep.1 ++ arr.1)

/-- `NPCManager.process_room_message` (npcs.py lines 635-672): collect the
keyword responses of the NPCs in the room (recording the interaction in each
responding NPC's memory), then — after the 1.5 second natural-response delay —
broadcast each response to the same room as `[NPC] name: response` with
`is_system=False`.  Returns the requested `(room, message)` broadcasts in
order and the NPCs with updated memories. -/
def process_room_message (st : NPCManagerState)
    (room_id player_name message : String) (now : Int) :
    List (String × String) × List NPC :=
  let npcs_in_room := get_npcs_in_room st room_id
  let responses := npcs_in_room.filterMap
    (fun npc =>
      match npc.check_keywords message with
      | some response =>
          some (npc.remember_player player_name (some (py_take 50 message)) now,
            response)
      | none => none)
  (responses.map (fun pr => (room_id, "[NPC] " ++ pr.1.name ++ ": " ++ pr.2)),
   responses.map Prod.fst)

/-! ## The `say` command (`commands.py` lines 252-274, `config.py` lines
26 and 77) -/

/-- `config.MAX_MESSAGE_LENGTH`. -/
def MAX_MESSAGE_LENGTH : Nat := 250

/-- `config.ROOM_MESSAGE_FORMAT` applied:
`"[Room] {username}: {message}"`. -/
def room_message_format (username message : String) : String :=
  "[Room] " ++ username ++ ": " ++ message

/-- An effect requested by a command handler: a reply on the issuing client's
own connection, or a room broadcast through the broadcast manager. -/
inductive SayEffect where
  | to_client (message : String)
  | room_broadcast (room message : String) (is_system : Bool)
  deriving DecidableEq, Repr

/-- `CommandProcessor.cmd_say` (commands.py lines 252-274): usage check,
player lookup, rate limit, truncation, then one room broadcast of the
formatted message.  It requests nothing else — in particular it never invokes
`NPCManager.process_room_message` (no caller of that function exists in the
repository). -/
def cmd_say (player : Option PlayerState) (args : String) (now : Int) :
    List SayEffect × Option PlayerState :=
  if args = "" then
    ([.to_client "Say what? Usage: say <message>\n"], player)
  else
    match player with
    | none => ([.to_client "You are not properly logged in.\n"], none)
    | some p =>
        let step :=
          check_rate_limit MESSAGE_RATE_LIMIT MESSAGE_RATE_WINDOW
            p.message_times now
        let p1 := { p with message_times := step.2 }
        if step.1 = false then
          ([.to_client "You are speaking too quickly. Please slow down.\n"],
           some p1)
        else
          let message :=
            if MAX_MESSAGE_LENGTH < args.length then
              py_take MAX_MESSAGE_LENGTH args ++ "..."
            else args
          ([.room_broadcast p.current_room_id
              (room_message_format p.username message) false],
           some p1)

/-! ## Idle checking (`config.py` lines 23-24, `server.py` lines 368-391,
`player.py` lines 217-238) -/

/-- `config.IDLE_TIMEOUT` (seconds). -/
def IDLE_TIMEOUT : Int := 1800

/-- `config.IDLE_WARNING_TIME = IDLE_TIMEOUT - 300`. -/
def IDLE_WARNING_TIME : Int := IDLE_TIMEOUT - 300

/-- A connected client as the idle checker sees it (server.py lines 23-45). -/
structure IdleClient where
  username : String
  authenticated : Bool
  last_activity : Int
  is_active : Bool
  deriving DecidableEq, Repr

/-- `Client.send` drops the message when the client is inactive (server.py
lines 47-60); a sent message is recorded as `(username, text)`. -/
def client_send (c : IdleClient) (message : String) :
    List (String × String) :=
  if c.is_active then [(c.username, message)] else []

/-- One client's handling inside one pass of `MudServer.idle_check_task`
(server.py lines 374-388): skip unauthenticated clients; in the warning band
send the warning (every pass — the task keeps no warned flag); past the
timeout send the disconnect notice and clear `is_active`. -/
def idle_check_client (c : IdleClient) (now : Int) :
    IdleClient × List (String × String) :=
  if c.authenticated = false then (c, [])
  else
    let idle_time := now - c.last_activity
    if IDLE_WARNING_TIME < idle_time ∧ idle_time < IDLE_TIMEOUT then
      (c, client_send c
        "\n[System] You will be disconnected in 5 minutes due to inactivity.\n")
    else if IDLE_TIMEOUT < idle_time then
      ({ c with is_active := false },
       client_send c "\n[System] Disconnected due to inactivity.\n")
    else (c, [])

/-- One pass of the `idle_check_task` loop body over all clients, in order. -/
def idle_check_cycle (clients : List IdleClient) (now : Int) :
    List IdleClient × List (String × String) :=
  match clients with
  | [] => ([], [])
  | c :: rest =>
      let this := idle_check_client c now
      let tail := idle_check_cycle rest now
      (this.1 :: tail.1, this.2 ++ tail.2)

/-- A live player as `PlayerManager.check_idle_players` sees it: the dynamic
`_idle_warned` attribute set by the one-time warning is carried as a flag
(absent attribute = `false`). -/
structure IdlePlayer where
  username : String
  last_activity : Int
  is_active : Bool
  idle_warned : Bool := false
  deriving DecidableEq, Repr

/-- Message emission through the player's client (drops when inactive). -/
def player_send (p : IdlePlayer) (message : String) :
    List (String × String) :=
  if p.is_active then [(p.username, message)] else []

/-- One player's handling inside `PlayerManager.check_idle_players`
(player.py lines 223-238): past the timeout disconnect; past the warning
threshold warn **once**, guarded by the `_idle_warned` flag. -/
def check_idle_player (p : IdlePlayer) (now : Int) :
    IdlePlayer × List (String × String) :=
  let idle_seconds := now - p.last_activity
  if IDLE_TIMEOUT < idle_seconds then
    ({ p with is_active := false },
     player_send p
       "\n[System] You have been disconnected due to inactivity.\n")
  else if IDLE_WARNING_TIME < idle_seconds then
    if p.idle_warned = false then
      ({ p with idle_warned := true },
       player_send p
         "\n[System] You will be disconnected in 5 minutes due to inactivity.\n")
    else (p, [])
  else (p, [])

/-- One pass of `PlayerManager.check_idle_players` over all live players. -/
def check_idle_players (players : List IdlePlayer) (now : Int) :
    List IdlePlayer × List (String × String) :=
  match players with
  | [] => ([], [])
  | p :: rest =>
      let this := check_idle_player p now
      let tail := check_idle_players rest now
      (this.1 :: tail.1, this.2 ++ tail.2)

/-! ## Concrete scenario inputs

Small concrete worlds, players and NPCs used to instantiate the theorems
below on explicit inputs. -/

/-- A two-room world with player 1 standing in room `a`. -/
def w_move_demo : World :=
  { rooms :=
      [("a", { id := "a", name := "Room A", description := "room a",
               exits := [("east", "b")], players := [1] }),
       ("b", { id := "b", name := "Room B", description := "room b",
               exits := [("west", "a")], players := [] })] }

/-- The persisted record of player 1. -/
def db_demo : DBPlayers :=
  [(1, { username := "abc", password_hash := "h", current_room_id := some "a" })]

/-- The live player 1 in room `a`. -/
def p_move_demo : PlayerState :=
  { id := 1, username := "abc", current_room_id := "a" }

/-- A one-room world with five occupants, for the broadcast scenario. -/
def w_bc_demo : World :=
  { rooms :=
      [("plaza", { id := "plaza", name := "Plaza", description := "plaza",
                   players := [1, 2, 3, 4, 5] })] }

/-- A live player whose transport send succeeds. -/
def lp_ok (n : Nat) (u : String) : LivePlayer :=
  { id := n, username := u, session := { is_active := true, send_result := .ok () } }

/-- A live player whose transport send raises. -/
def lp_bad (n : Nat) (u : String) : LivePlayer :=
  { id := n, username := u,
    session := { is_active := true, send_result := .error "ConnectionResetError" } }

/-- Five sessions in the plaza; player 2's send raises. -/
def registry_bc_demo : List (Nat × LivePlayer) :=
  [(1, lp_ok 1 "ann"), (2, lp_bad 2 "bob"), (3, lp_ok 3 "cho"),
   (4, lp_ok 4 "dee"), (5, lp_ok 5 "eve")]

/-- The NPC of the keyword scenario of the spec: keyword entry
`"hello|hi" -> "Well hello there!"`, standing in the Alamo Plaza. -/
def npc_maria : NPC :=
  { id := "maria", name := "Maria",
    keywords := [("hello|hi", "Well hello there!")],
    current_room := some "alamo_plaza" }

/-- An NPC manager tracking `npc_maria` in `alamo_plaza`. -/
def mgr_demo : NPCManagerState :=
  { npcs := [("maria", npc_maria)],
    room_npcs := [("alamo_plaza", ["maria"])] }

/-- The authenticated speaker of the keyword scenario. -/
def player_abc : PlayerState :=
  { id := 1, username := "abc", current_room_id := "alamo_plaza" }

/-- An NPC whose time-period schedule names a room (`x`) outside its
`allowed_rooms` list. -/
def npc_sched : NPC :=
  { id := "vendor", name := "Vendor",
    current_room := some "a",
    movement := some { allowed_rooms := some ["a", "b"],
                       tick_interval := some 60,
                       movement_probability := some 1,
                       schedule := some [("morning", "x")] } }

/-- A freshly registered NPC (no current room yet), for placement. -/
def npc_fresh : NPC := { id := "maria", name := "Maria" }

/-- Manager state holding only the fresh NPC. -/
def mgr_fresh : NPCManagerState :=
  { npcs := [("maria", npc_fresh)], room_npcs := [] }

/-- A world containing the Alamo Plaza room (as the hard-coded world of
`World._initialize_world` does). -/
def w_plaza_demo : World :=
  { rooms := [("alamo_plaza",
      { id := "alamo_plaza", name := "The Alamo Plaza",
        description := "Stone walls surround you." })] }

/-- An authenticated client, active, last active at time 0. -/
def idle_client_demo : IdleClient :=
  { username := "abc", authenticated := true, last_activity := 0,
    is_active := true }

/-- The same player as `PlayerManager.check_idle_players` would see it. -/
def idle_player_demo : IdlePlayer :=
  { username := "abc", last_activity := 0, is_active := true }

/-- An NPC remembering player `abc`, last seen at time 0. -/
def npc_memory_demo : NPC :=
  { id := "maria", name := "Maria",
    player_memories :=
      [("abc", { first_met := 0, last_seen := 0, interaction_count := 3,
                 topics := [] })] }

/-! ## Helper lemmas on the dictionary and set primitives -/

theorem dict_get_map_at_self {α β : Type} [DecidableEq α] (k : α) (f : β → β)
    (l : List (α × β)) :
    dict_get k (dict_map_at k f l) = (dict_get k l).map f := by
  induction l with
  | nil => rfl
  | cons p rest ih =>
      obtain ⟨a, b⟩ := p
      dsimp only [dict_map_at, List.map]
      by_cases h : a = k
      · rw [if_pos h]
        dsimp only [dict_get]
        rw [if_pos h, if_pos h]
        rfl
      · rw [if_neg h]
        dsimp only [dict_get]
        rw [if_neg h, if_neg h]
        exact ih

theorem dict_get_map_at_other {α β : Type} [DecidableEq α] (k k1 : α)
    (f : β → β) (l : List (α × β)) (h : k1 ≠ k) :
    dict_get k1 (dict_map_at k f l) = dict_get k1 l := by
  induction l with
  | nil => rfl
  | cons p rest ih =>
      obtain ⟨a, b⟩ := p
      dsimp only [dict_map_at, List.map]
      by_cases hp : a = k
      · rw [if_pos hp]
        have ha : ¬ a = k1 := fun e => h (e ▸ hp)
        dsimp only [dict_get]
        rw [if_neg ha, if_neg ha]
        exact ih
      · rw [if_neg hp]
        dsimp only [dict_get]
        by_cases hp1 : a = k1
        · rw [if_pos hp1, if_pos hp1]
        · rw [if_neg hp1, if_neg hp1]
          exact ih

theorem mem_pyset_add_self {α : Type} [DecidableEq α] (x : α) (s : List α) :
    x ∈ pyset_add x s := by
  by_cases h : x ∈ s <;> simp [pyset_add, h]

theorem not_mem_pyset_discard_self {α : Type} [DecidableEq α] (x : α)
    (s : List α) : x ∉ pyset_discard x s := by
  simp [pyset_discard]


/-! ## Claim theorems -/

/-- C9: when `check_rate_limit` rejects — the player already has the limit's
worth of timestamps inside the window — it records no new timestamp: the
resulting `message_times` state is exactly the pruned list (entries older than
the window removed, nothing added), so a rejected chat attempt never extends
the lockout. -/
theorem c9_reject_records_no_timestamp (limit : Nat) (window : Int)
    (times : List Int) (now : Int)
    (h : limit ≤ (prune_times window now times).length) :
    check_rate_limit limit window times now =
      (false, prune_times window now times) := by
  simp [check_rate_limit, h]

/-- Witness for C9: five timestamps inside the configured window; the sixth
call is rejected and leaves the state exactly the pruned (here: unchanged)
list. -/
theorem c9_reject_records_no_timestamp_witness :
    MESSAGE_RATE_LIMIT ≤
      (prune_times MESSAGE_RATE_WINDOW 5 [0, 1, 2, 3, 4]).length ∧
    check_rate_limit MESSAGE_RATE_LIMIT MESSAGE_RATE_WINDOW [0, 1, 2, 3, 4] 5 =
      (false, [0, 1, 2, 3, 4]) :=
  ⟨by decide,
   (c9_reject_records_no_timestamp MESSAGE_RATE_LIMIT MESSAGE_RATE_WINDOW
       [0, 1, 2, 3, 4] 5 (by decide)).trans (by decide)⟩

/-- C5 (failing evaluation): every `PlayerManager.add_player` call raises.
`Player.__init__` (player.py line 25) reads `world.starting_room`, an
attribute the `World` class never defines and nothing ever assigns, so the
constructor raises `AttributeError` for every input before any starting-room
resolution, registration or occupancy update can happen — the call never
returns a live `Player`. -/
theorem c5_add_player_always_raises (w : World) (db : DBPlayers)
    (active_players : List (Nat × PlayerState)) (player_id : Nat)
    (username : String) (room_id : Option String) :
    add_player w db active_players player_id username room_id =
      Except.error
        "AttributeError: World object has no attribute starting_room" := rfl

/-- C8 (failing evaluation): the idle check that actually runs
(`MudServer.idle_check_task`, started in server.py line 240) keeps no
per-client warned flag, so a client idle in the warning band is warned again
on **every** 60-second cycle — here twice in two consecutive cycles — while
the claim (and the never-called `PlayerManager.check_idle_players`, whose
`_idle_warned` flag the last two conjuncts evaluate) wants exactly one warning
in total. -/
theorem c8_idle_warning_repeats_every_cycle :
    (idle_check_cycle [idle_client_demo] 1600).2 =
      [("abc",
        "\n[System] You will be disconnected in 5 minutes due to inactivity.\n")] ∧
    (idle_check_cycle (idle_check_cycle [idle_client_demo] 1600).1 1660).2 =
      [("abc",
        "\n[System] You will be disconnected in 5 minutes due to inactivity.\n")] ∧
    (check_idle_players [idle_player_demo] 1600).2 =
      [("abc",
        "\n[System] You will be disconnected in 5 minutes due to inactivity.\n")] ∧
    (check_idle_players (check_idle_players [idle_player_demo] 1600).1 1660).2 =
      [] := by decide

/-- C4 (failing evaluation): an authenticated player saying `hi everyone` in
a room holding an NPC with keyword entry `"hello|hi" -> "Well hello there!"`.
`cmd_say` requests exactly the `[Room]` broadcast and nothing else — no NPC
response is ever produced, because no code calls
`NPCManager.process_room_message`.  The second conjunct evaluates that
(dead) function on the same scenario: had it been called it would have
requested exactly one `[NPC]` broadcast, to that room only. -/
theorem c4_say_never_reaches_npc_keywords :
    (cmd_say (some player_abc) "hi everyone" 0).1 =
      [SayEffect.room_broadcast "alamo_plaza" "[Room] abc: hi everyone" false] ∧
    (process_room_message mgr_demo "alamo_plaza" "abc" "hi everyone" 0).1 =
      [("alamo_plaza", "[NPC] Maria: Well hello there!")] := by decide

/-- C10: `knows_player` is not a pure query.  If the stored memory is more
than `memory_duration` (whole) days old, the call deletes that entry from
`player_memories` and answers `false`; and in every call the dictionary is
either left unchanged or has exactly that one expired entry removed. -/
theorem c10_knows_player_expiry_frame (npc : NPC) (player_name : String)
    (now : Int) :
    (∀ m, dict_get player_name npc.player_memories = some m →
      npc.memory_settings.remember_names.getD true = true →
      (npc.memory_settings.memory_duration.getD 30 : Int) <
          elapsed_days now m.last_seen →
      (npc.knows_player player_name now).1 = false ∧
      (npc.knows_player player_name now).2 =
        dict_del player_name npc.player_memories) ∧
    ((npc.knows_player player_name now).2 = npc.player_memories ∨
      ∃ m, dict_get player_name npc.player_memories = some m ∧
        (npc.memory_settings.memory_duration.getD 30 : Int) <
            elapsed_days now m.last_seen ∧
        (npc.knows_player player_name now).2 =
          dict_del player_name npc.player_memories) := by
  unfold NPC.knows_player
  by_cases hrn : npc.memory_settings.remember_names.getD true = false
  · rw [if_pos hrn]
    refine ⟨fun m _ hTrue _ => ?_, Or.inl rfl⟩
    rw [hrn] at hTrue
    exact Bool.noConfusion hTrue
  · rw [if_neg hrn]
    cases hget : dict_get player_name npc.player_memories with
    | none =>
        exact ⟨fun m hm => Option.noConfusion hm, Or.inl rfl⟩
    | some memory =>
        dsimp only
        by_cases hexp :
            (npc.memory_settings.memory_duration.getD 30 : Int) <
              elapsed_days now memory.last_seen
        · rw [if_pos hexp]
          exact ⟨fun m hm _ _ => ⟨rfl, rfl⟩, Or.inr ⟨memory, rfl, hexp, rfl⟩⟩
        · rw [if_neg hexp]
          refine ⟨fun m hm _ hlt => ?_, Or.inl rfl⟩
          cases Option.some.inj hm
          exact absurd hlt hexp

/-- Witness for C10: 31 whole days after the last interaction (duration 30),
the query answers `false` and deletes the entry. -/
theorem c10_knows_player_expiry_frame_witness :
    (npc_memory_demo.knows_player "abc" 2678400).1 = false ∧
    (npc_memory_demo.knows_player "abc" 2678400).2 =
      dict_del "abc" npc_memory_demo.player_memories :=
  (c10_knows_player_expiry_frame npc_memory_demo "abc" 2678400).1
    { first_met := 0, last_seen := 0, interaction_count := 3, topics := [] }
    (by decide) (by decide) (by decide)

/-- Auxiliary induction for C7: starting from a state whose timestamps are all
within the window of every upcoming call, and with the calls pairwise within
one window of each other, pruning never removes anything, so the `i`-th call
is allowed exactly when the state has grown to fewer than `limit` entries:
decision `i` is `state.length + i < limit`. -/
theorem rate_limit_run_in_window (limit : Nat) (window : Int)
    (st : List Int) (calls : List Int)
    (hst : ∀ t ∈ st, ∀ u ∈ calls, u - t < window)
    (hcalls : calls.Pairwise (fun a b => b - a < window)) :
    (rate_limit_run limit window st calls).1 =
      (List.range calls.length).map (fun i => decide (st.length + i < limit)) := by
  induction calls generalizing st with
  | nil => rfl
  | cons t rest ih =>
      have hkeep : prune_times window t st = st :=
        List.filter_eq_self.mpr (fun x hx =>
          decide_eq_true (hst x hx t (List.mem_cons_self t rest)))
      have hpair := List.pairwise_cons.mp hcalls
      rw [List.length_cons, List.range_succ_eq_map, List.map_cons, List.map_map]
      by_cases hlen : limit ≤ st.length
      · have hstep : check_rate_limit limit window st t = (false, st) := by
          rw [check_rate_limit]
          simp only [hkeep, if_pos hlen]
        have htail := ih st
          (fun x hx u hu => hst x hx u (List.mem_cons_of_mem t hu)) hpair.2
        show (check_rate_limit limit window st t).1 ::
            (rate_limit_run limit window
              (check_rate_limit limit window st t).2 rest).1 = _
        rw [hstep]
        simp only [htail]
        refine List.cons_eq_cons.mpr ⟨?_, ?_⟩
        · exact (decide_eq_false (by omega)).symm
        · exact List.map_congr_left (fun i _ => by
            have h1 : ¬ st.length + i < limit := by omega
            have h2 : ¬ st.length + (Nat.succ i) < limit := by omega
            rw [Function.comp_apply, decide_eq_false h1, decide_eq_false h2])
      · have hstep : check_rate_limit limit window st t = (true, st ++ [t]) := by
          rw [check_rate_limit]
          simp only [hkeep, if_neg hlen]
        have hst1 : ∀ x ∈ st ++ [t], ∀ u ∈ rest, u - x < window := by
          intro x hx u hu
          rcases List.mem_append.mp hx with hx | hx
          · exact hst x hx u (List.mem_cons_of_mem t hu)
          · rw [List.mem_singleton.mp hx]
            exact hpair.1 u hu
        have htail := ih (st ++ [t]) hst1 hpair.2
        show (check_rate_limit limit window st t).1 ::
            (rate_limit_run limit window
              (check_rate_limit limit window st t).2 rest).1 = _
        rw [hstep]
        simp only [htail, List.length_append, List.length_singleton]
        refine List.cons_eq_cons.mpr ⟨?_, ?_⟩
        · exact (decide_eq_true (by omega)).symm
        · exact List.map_congr_left (fun i _ => by
            rw [Function.comp_apply,
              show st.length + 1 + i = st.length + Nat.succ i from by omega])

/-- C7: for calls whose timestamps all lie within one rolling window of `W`
seconds (pairwise differences below the window), repeated `check_rate_limit`
calls starting from an empty state allow exactly the first `N` calls and
reject every further call inside the window: the `i`-th decision is `i < N`.
The configuration of the code fixes `N = MESSAGE_RATE_LIMIT = 5` and
`W = MESSAGE_RATE_WINDOW = 10` (see the witness). -/
theorem c7_rate_limit_rolling_window (limit : Nat) (window : Int)
    (calls : List Int)
    (hcalls : calls.Pairwise (fun a b => b - a < window)) :
    (rate_limit_run limit window [] calls).1 =
      (List.range calls.length).map (fun i => decide (i < limit)) := by
  have h := rate_limit_run_in_window limit window [] calls
    (fun t ht => absurd ht (List.not_mem_nil t)) hcalls
  simpa using h

/-- Witness for C7 at the configured values: six calls inside one 10-second
window; the first five are allowed, the sixth is rejected. -/
theorem c7_rate_limit_rolling_window_witness :
    ([0, 1, 2, 3, 4, 5] : List Int).Pairwise
      (fun a b => b - a < MESSAGE_RATE_WINDOW) ∧
    (rate_limit_run MESSAGE_RATE_LIMIT MESSAGE_RATE_WINDOW []
        [0, 1, 2, 3, 4, 5]).1 =
      [true, true, true, true, true, false] :=
  ⟨by decide,
   (c7_rate_limit_rolling_window MESSAGE_RATE_LIMIT MESSAGE_RATE_WINDOW
       [0, 1, 2, 3, 4, 5] (by decide)).trans (by decide)⟩

/-- C6 (failing evaluation): placing a registered, not-yet-placed NPC into any
room id that the world actually contains raises: after the manager has already
mutated its own dictionaries, `place_npc` calls `new_room.add_npc(npc_id)` on
the `Room` dataclass, which defines no such method (and no `npcs` set), so the
operation never completes and the `Room`-level occupancy is never recorded.
(`move_npc` crashes the same way through `old_room_obj.remove_npc` /
`place_npc`.) -/
theorem c6_place_npc_raises (st : NPCManagerState) (w : World) (npc : NPC)
    (npc_id room_id : String)
    (hnpc : dict_get npc_id st.npcs = some npc)
    (hcur : npc.current_room = none)
    (hroom : (w.get_room room_id).isSome) :
    place_npc st w npc_id room_id =
      Except.error "AttributeError: Room object has no attribute add_npc" := by
  obtain ⟨room, hr⟩ := Option.isSome_iff_exists.mp hroom
  unfold place_npc
  rw [hnpc]
  dsimp only
  rw [hcur]
  dsimp only [Bind.bind, Except.bind]
  rw [hr]

/-- Witness for C6: the fresh NPC `maria` placed into `alamo_plaza` of a world
that (like the hard-coded one) contains that room. -/
theorem c6_place_npc_raises_witness :
    place_npc mgr_fresh w_plaza_demo "maria" "alamo_plaza" =
      Except.error "AttributeError: Room object has no attribute add_npc" :=
  c6_place_npc_raises mgr_fresh w_plaza_demo npc_fresh "maria" "alamo_plaza"
    (by decide) (by decide) (by decide)

/-- After `move_player`, the source room's entry (if any) is exactly the old
room with the player discarded (`A ≠ B`, so the destination update does not
touch it). -/
theorem move_player_get_src (w : World) (pid : Nat) (A B : String)
    (hAB : A ≠ B) :
    (w.move_player pid A B).get_room A =
      (w.get_room A).map (·.remove_player pid) := by
  unfold World.move_player
  cases hA : w.get_room A with
  | none =>
      dsimp only
      cases hB : w.get_room B with
      | none => exact hA
      | some rb =>
          dsimp only
          show dict_get A
              (dict_map_at B (fun x => x.add_player pid) w.rooms) = none
          rw [dict_get_map_at_other B A _ _ hAB]
          exact hA
  | some ra =>
      dsimp only
      cases hB1 : World.get_room
          { rooms := dict_map_at A (fun x => x.remove_player pid) w.rooms }
          B with
      | none =>
          dsimp only
          show dict_get A
              (dict_map_at A (fun x => x.remove_player pid) w.rooms) =
            some (ra.remove_player pid)
          rw [dict_get_map_at_self,
            show dict_get A w.rooms = some ra from hA]
          rfl
      | some rb =>
          dsimp only
          show dict_get A
              (dict_map_at B (fun x => x.add_player pid)
                (dict_map_at A (fun x => x.remove_player pid) w.rooms)) =
            some (ra.remove_player pid)
          rw [dict_get_map_at_other B A _ _ hAB, dict_get_map_at_self,
            show dict_get A w.rooms = some ra from hA]
          rfl

/-- After `move_player`, the destination room's entry is exactly the old room
with the player added. -/
theorem move_player_get_dest (w : World) (pid : Nat) (A B : String)
    (hAB : A ≠ B) (rb : Room) (hrb : w.get_room B = some rb) :
    (w.move_player pid A B).get_room B = some (rb.add_player pid) := by
  have hBA : B ≠ A := fun e => hAB e.symm
  unfold World.move_player
  cases hA : w.get_room A with
  | none =>
      dsimp only
      rw [hrb]
      dsimp only
      show dict_get B
          (dict_map_at B (fun x => x.add_player pid) w.rooms) =
        some (rb.add_player pid)
      rw [dict_get_map_at_self,
        show dict_get B w.rooms = some rb from hrb]
      rfl
  | some ra =>
      dsimp only
      have h1 : World.get_room
          { rooms := dict_map_at A (fun x => x.remove_player pid) w.rooms }
          B = some rb := by
        show dict_get B
            (dict_map_at A (fun x => x.remove_player pid) w.rooms) = some rb
        rw [dict_get_map_at_other A B _ _ hBA]
        exact hrb
      rw [h1]
      dsimp only
      show dict_get B
          (dict_map_at B (fun x => x.add_player pid)
            (dict_map_at A (fun x => x.remove_player pid) w.rooms)) =
        some (rb.add_player pid)
      rw [dict_get_map_at_self, dict_get_map_at_other A B _ _ hBA,
        show dict_get B w.rooms = some rb from hrb]
      rfl

/-- C1: a live player currently in room `A` completing
`Player.move_to_room(B)` (for an existing destination room `B ≠ A` and an
existing persisted record) ends with the player absent from `A.players`,
present in `B.players`, `current_room_id = B`, and the persisted record's
current room updated to `B`. -/
theorem c1_move_to_room_occupancy (w : World) (db : DBPlayers)
    (p : PlayerState) (A B : String) (from_direction : Option String)
    (hcur : p.current_room_id = A)
    (hAB : A ≠ B)
    (hB : (w.get_room B).isSome)
    (hdb : (dict_get p.id db).isSome) :
    (∀ r, (move_to_room w db p B from_direction).1.get_room A = some r →
        p.id ∉ r.players) ∧
    (∃ r, (move_to_room w db p B from_direction).1.get_room B = some r ∧
        p.id ∈ r.players) ∧
    (move_to_room w db p B from_direction).2.1.current_room_id = B ∧
    (∃ rec,
      dict_get p.id (move_to_room w db p B from_direction).2.2.1 = some rec ∧
      rec.current_room_id = some B) := by
  obtain ⟨rb, hrb⟩ := Option.isSome_iff_exists.mp hB
  obtain ⟨rec, hrec⟩ := Option.isSome_iff_exists.mp hdb
  have e1 : (move_to_room w db p B from_direction).1 =
      w.move_player p.id A B := by
    rw [← hcur]
    exact rfl
  refine ⟨?_, ?_, rfl, ?_⟩
  · intro r hr
    rw [e1, move_player_get_src w p.id A B hAB] at hr
    cases hA : w.get_room A with
    | none =>
        rw [hA] at hr
        exact Option.noConfusion hr
    | some ra =>
        rw [hA] at hr
        dsimp only [Option.map] at hr
        cases Option.some.inj hr
        exact not_mem_pyset_discard_self _ _
  · refine ⟨rb.add_player p.id, ?_, mem_pyset_add_self _ _⟩
    rw [e1]
    exact move_player_get_dest w p.id A B hAB rb hrb
  · refine ⟨{ rec with current_room_id := some B }, ?_, rfl⟩
    show dict_get p.id
        (dict_map_at p.id
          (fun r => { r with current_room_id := some B }) db) =
      some { rec with current_room_id := some B }
    rw [dict_get_map_at_self, hrec]
    rfl

/-- Witness for C1: player 1 moves from room `a` to room `b` in the two-room
world; afterwards room `a` no longer lists id 1, room `b` does, and both the
live player and the persisted record point at `b`. -/
theorem c1_move_to_room_occupancy_witness :
    (∀ r, (move_to_room w_move_demo db_demo p_move_demo "b" (some "east")).1.get_room
        "a" = some r → p_move_demo.id ∉ r.players) ∧
    (∃ r, (move_to_room w_move_demo db_demo p_move_demo "b" (some "east")).1.get_room
        "b" = some r ∧ p_move_demo.id ∈ r.players) ∧
    (move_to_room w_move_demo db_demo p_move_demo "b" (some "east")).2.1.current_room_id
        = "b" ∧
    (∃ rec, dict_get p_move_demo.id
        (move_to_room w_move_demo db_demo p_move_demo "b" (some "east")).2.2.1 =
          some rec ∧ rec.current_room_id = some "b") :=
  c1_move_to_room_occupancy w_move_demo db_demo p_move_demo "a" "b" (some "east")
    rfl (by decide) (by decide) (by decide)

/-- Every recipient whose own session is active and whose own send succeeds
receives the message from the gathered sends — whatever the other recipients'
sends do. -/
theorem gather_sends_delivers (message : String) (l : List LivePlayer)
    (p : LivePlayer) (hp : p ∈ l) (hact : p.session.is_active = true)
    (hok : p.session.send_result = Except.ok ()) :
    (p.id, message) ∈ (gather_sends message l).1 := by
  induction l with
  | nil => cases hp
  | cons q rest ih =>
      rw [gather_sends]
      rcases List.mem_cons.mp hp with h | h
      · subst h
        have hsend : send_to_player p message = (some (p.id, message), []) := by
          unfold send_to_player send_to_player_raw
          rw [hact, hok]
          rfl
        rw [hsend]
        exact List.mem_append_left _ (List.mem_singleton_self _)
      · exact List.mem_append_right _ (ih h)

/-- C3: `broadcast_to_room` returns normally to its caller — no per-recipient
send failure propagates, each being caught and logged in `_send_to_player` —
and delivery to any one healthy occupant does not depend on how many of the
other occupants' sends raise: every non-excluded occupant whose session is
active and whose send succeeds receives the (formatted) message. -/
theorem c3_broadcast_failure_isolated (w : World)
    (registry : List (Nat × LivePlayer)) (room_id message : String)
    (exclude_player_id : Option Nat) (is_system : Bool) (p : LivePlayer)
    (hp : p ∈ get_players_in_room w registry room_id)
    (hex : some p.id ≠ exclude_player_id)
    (hact : p.session.is_active = true)
    (hok : p.session.send_result = Except.ok ()) :
    ∃ delivered logs,
      broadcast_to_room w registry room_id message exclude_player_id
          is_system = Except.ok (delivered, logs) ∧
      (p.id, if is_system then "[System] " ++ message else message) ∈
        delivered := by
  cases hroom : w.get_room room_id with
  | none =>
      unfold get_players_in_room at hp
      rw [hroom] at hp
      exact absurd hp (List.not_mem_nil p)
  | some room =>
      unfold broadcast_to_room
      rw [hroom]
      dsimp only
      refine ⟨_, _, rfl, ?_⟩
      refine gather_sends_delivers _ _ p ?_ hact hok
      exact List.mem_filter.mpr ⟨hp, decide_eq_true hex⟩

/-- Witness for C3: the plaza holds five sessions and player 2's send raises;
broadcasting still returns `ok` and player 1 (one of the other four, all of
whom are in the same position) receives the formatted message. -/
theorem c3_broadcast_failure_isolated_witness :
    ∃ delivered logs,
      broadcast_to_room w_bc_demo registry_bc_demo "plaza" "hello" none true =
        Except.ok (delivered, logs) ∧
      ((lp_ok 1 "ann").id,
        if true then "[System] " ++ "hello" else "hello") ∈ delivered :=
  c3_broadcast_failure_isolated w_bc_demo registry_bc_demo "plaza" "hello"
    none true (lp_ok 1 "ann") (by decide) (by decide) (by decide) (by decide)

/-- C2 (amended): whenever `get_next_room` returns a room, that room differs
from the NPC's `current_room`, and it is either a member of the movement
policy's `allowed_rooms` list (the random branch filters on that list) or the
schedule entry for the current time period — a schedule entry is **not**
checked against `allowed_rooms` (see the counterexample); and the function
returns `absent` whenever less than `tick_interval` seconds have elapsed since
`last_moved`. -/
theorem c2_get_next_room_amended (npc : NPC) (elapsed : Nat) (roll : ℚ)
    (choice_idx : Nat) (current_hour : Option Nat) :
    (∀ r, npc.get_next_room elapsed roll choice_idx current_hour = some r →
        some r ≠ npc.current_room ∧
        (r ∈ npc.allowed_rooms_list ∨
          npc.schedule_entry current_hour = some r)) ∧
    (elapsed < npc.tick_interval_value →
      npc.get_next_room elapsed roll choice_idx current_hour = none) := by
  refine ⟨?_, ?_⟩
  · intro r hr
    unfold NPC.get_next_room at hr
    cases hmv : npc.movement with
    | none => rw [hmv] at hr; exact Option.noConfusion hr
    | some mv =>
        rw [hmv] at hr
        dsimp only at hr
        by_cases hint : npc.is_interacting
        · rw [if_pos hint] at hr; exact Option.noConfusion hr
        · rw [if_neg hint] at hr
          by_cases htick : elapsed % 86400 < mv.tick_interval.getD 120
          · rw [if_pos htick] at hr; exact Option.noConfusion hr
          · rw [if_neg htick] at hr
            by_cases hprob : mv.movement_probability.getD (3/10) < roll
            · rw [if_pos hprob] at hr; exact Option.noConfusion hr
            · rw [if_neg hprob] at hr
              have hallow : npc.allowed_rooms_list = mv.allowed_rooms.getD [] := by
                unfold NPC.allowed_rooms_list
                rw [hmv]
              have hrand : ∀ hrr :
                  (match (mv.allowed_rooms.getD []).filter
                      (fun x => decide (some x ≠ npc.current_room)) with
                    | [] => none
                    | a :: as =>
                        some ((a :: as).get ⟨choice_idx % (a :: as).length,
                          Nat.mod_lt _ (Nat.succ_pos _)⟩)) = some r,
                  some r ≠ npc.current_room ∧
                    (r ∈ npc.allowed_rooms_list ∨
                      npc.schedule_entry current_hour = some r) := by
                intro hrr
                cases hfo : (mv.allowed_rooms.getD []).filter
                    (fun x => decide (some x ≠ npc.current_room)) with
                | nil => rw [hfo] at hrr; exact Option.noConfusion hrr
                | cons a as =>
                    rw [hfo] at hrr
                    have hm : r ∈ a :: as := by
                      rw [← Option.some.inj hrr]
                      exact List.get_mem _ _ _
                    rw [← hfo] at hm
                    have hmf := List.mem_filter.mp hm
                    refine ⟨of_decide_eq_true hmf.2, Or.inl ?_⟩
                    rw [hallow]
                    exact hmf.1
              cases hch : current_hour with
              | none =>
                  rw [hch] at hr hrand
                  dsimp only at hr
                  exact hrand hr
              | some h =>
                  rw [hch] at hr hrand
                  cases hsch : mv.schedule with
                  | none =>
                      rw [hsch] at hr
                      dsimp only at hr
                      exact hrand hr
                  | some sch =>
                      rw [hsch] at hr
                      dsimp only at hr
                      cases hdg : dict_get (time_period h) sch with
                      | none =>
                          rw [hdg] at hr
                          dsimp only at hr
                          exact hrand hr
                      | some target =>
                          rw [hdg] at hr
                          dsimp only at hr
                          by_cases hne : some target ≠ npc.current_room
                          · rw [if_pos hne] at hr
                            dsimp only at hr
                            cases Option.some.inj hr
                            refine ⟨hne, Or.inr ?_⟩
                            unfold NPC.schedule_entry
                            rw [hmv]
                            dsimp only
                            rw [hsch]
                            exact hdg
                          · rw [if_neg hne] at hr
                            dsimp only at hr
                            exact hrand hr
  · intro hlt
    unfold NPC.get_next_room
    cases hmv : npc.movement with
    | none => rfl
    | some mv =>
        dsimp only
        have htv : npc.tick_interval_value = mv.tick_interval.getD 120 := by
          unfold NPC.tick_interval_value
          rw [hmv]
        rw [htv] at hlt
        by_cases hint : npc.is_interacting
        · rw [if_pos hint]
        · rw [if_neg hint]
          have hmod : elapsed % 86400 < mv.tick_interval.getD 120 :=
            Nat.lt_of_le_of_lt (Nat.mod_le _ _) hlt
          rw [if_pos hmod]

/-- Counterexample for C2 as stated: `npc_sched`'s morning schedule entry `x`
is not in its `allowed_rooms` list `[a, b]`, yet `get_next_room` returns it
(the schedule branch never consults the allow-list). -/
theorem c2_schedule_room_outside_allowed :
    npc_sched.get_next_room 200 0 0 (some 8) = some "x" ∧
    "x" ∉ npc_sched.allowed_rooms_list := by decide

/-- Witness for C2 (amended): on `npc_sched` the returned room differs from
the current room and is the schedule entry, and a call 10 seconds after the
last move (tick interval 60) yields `absent`. -/
theorem c2_get_next_room_amended_witness :
    (some "x" ≠ npc_sched.current_room ∧
      ("x" ∈ npc_sched.allowed_rooms_list ∨
        npc_sched.schedule_entry (some 8) = some "x")) ∧
    npc_sched.get_next_room 10 0 0 (some 8) = none :=
  ⟨(c2_get_next_room_amended npc_sched 200 0 0 (some 8)).1 "x" (by decide),
   (c2_get_next_room_amended npc_sched 10 0 0 (some 8)).2 (by decide)⟩
